import Mathlib

/-!
Verification development for the kuzudb/dspy-text2cypher repository.
The Python sources `src/text2cypher.py` and `src/utils.py` are shallowly
embedded: the three language-model calls are modelled as an oracle record
of pure functions, the Kuzu database connection as a record whose
`execute` returns either the rows of a query or an execution error
(the kuzu Python client reports query execution failures as RuntimeError,
the exception class caught in `run_query`), and the async batch gather as
an explicit fold over the completion order of the tasks.
-/

namespace Text2Cypher

/-- The pydantic `Property` model of `src/text2cypher.py` (lines 29-31),
and equally the property dicts with keys name/type built in
`src/utils.py`. -/
structure Property where
  name : String
  type : String
deriving Repr, DecidableEq

/-- The pydantic `Node` model (lines 34-36): a label and an optional
property list. -/
structure Node where
  label : String
  properties : Option (List Property)
deriving Repr, DecidableEq

/-- The pydantic `Edge` model (lines 39-43).  The source fields are named
`from_` (alias "from") and `to` (written `to_` below because `to` is a
reserved token).  In the source, the field `to` ALSO carries
`alias="from"` (line 42), although its description reads
"Target node label". -/
structure Edge where
  label : String
  from_ : Node
  to_ : Node
  properties : Option (List Property)
deriving Repr, DecidableEq

/-- The payload of an edge entry as the catalog / model emits it: a value
under the key "from" (here `from_`) and a value under the key "to"
(here `to_`). -/
structure EdgePayload where
  label : String
  from_ : Node
  to_ : Node
  properties : Option (List Property)
deriving Repr, DecidableEq

/-- Pydantic validation of the `Edge` model applied to a payload.
Because both `from_` and `to` declare the alias "from"
(src/text2cypher.py lines 41-42), both fields are populated from the
payload value under the key "from"; the value under the key "to" is
ignored as an extra key. -/
def Edge.parse (p : EdgePayload) : Edge :=
  { label := p.label, from_ := p.from_, to_ := p.from_, properties := p.properties }

/-- The pydantic `GraphSchema` model (lines 46-48). -/
structure GraphSchema where
  nodes : List Node
  edges : List Edge
deriving Repr, DecidableEq

/-- The pydantic `Query` model (lines 25-26): one string field holding the
generated Cypher statement.  The field description asks the model for
"Valid Cypher query with no newlines"; it is prompt text, not a
validator. -/
structure Query where
  query : String
deriving Repr, DecidableEq

/-- The `response` field of the `AnswerQuestion` prediction
(lines 96-105). -/
structure Answer where
  response : String
deriving Repr, DecidableEq

/-- The three structured language-model calls of the `GraphRAG` module
(src/text2cypher.py lines 114-117), modelled as an oracle of pure
functions: `prune` is `dspy.Predict(PruneSchema)` returning the
`pruned_schema` field, `text2cypher` is `dspy.ChainOfThought(Text2Cypher)`
returning the `query` field, and `generate_answer` is
`dspy.Predict(AnswerQuestion)` returning the prediction. -/
structure LMOracle where
  prune : String → String → GraphSchema
  text2cypher : String → GraphSchema → Query
  generate_answer : String → String → String → Answer

/-- The kuzu connection (src/utils.py line 10): `execute` runs a query
string and either returns its rows (each row an ordered list of column
values of type α) or fails with the message of the RuntimeError that the
kuzu client raises on an execution error. -/
structure KuzuConnection (α : Type) where
  execute : String → Except String (List (List α))

/-- `KuzuDatabaseManager` (src/utils.py lines 4-10), reduced to the state
the pipeline reads: its connection. -/
structure KuzuDatabaseManager (α : Type) where
  conn : KuzuConnection α

/-- `GraphRAG.get_cypher_query` (src/text2cypher.py lines 119-124): prune
the schema for the question, then ask the model for a query against the
pruned schema, and return the resulting `Query` unchanged. -/
def get_cypher_query (m : LMOracle) (question input_schema : String) : Query :=
  let prune_result := m.prune question input_schema
  let cypher_query := m.text2cypher question prune_result
  cypher_query

/-- `GraphRAG.run_query` (src/text2cypher.py lines 126-141): generate the
query, execute it on the connection, flatten the rows with the
comprehension over rows then items, and on a RuntimeError return the
query text with `None` results. -/
def run_query (m : LMOracle) (db_manager : KuzuDatabaseManager α)
    (question input_schema : String) : String × Option (List α) :=
  let result := get_cypher_query m question input_schema
  let query := result.query
  match db_manager.conn.execute query with
  | .ok rows => (query, some (rows.flatMap fun row => row))
  | .error _ => (query, none)

/-- `GraphRAG.forward` (src/text2cypher.py lines 143-152).  The second
component counts how many times `self.generate_answer` (the answer
synthesis model call) is invoked during the call. -/
def forward [ToString α] (m : LMOracle) (db_manager : KuzuDatabaseManager α)
    (question input_schema : String) : Option Answer × Nat :=
  let r := run_query m db_manager question input_schema
  match r.2 with
  | none => (none, 0)
  | some final_context =>
      (some (m.generate_answer question r.1 (toString final_context)), 1)

/-- `GraphRAG.aforward` (src/text2cypher.py lines 154-163): the async
variant, whose body is identical to `forward`; it suspends only around
the model call, which does not change the value computed.  The second
component again counts answer-synthesis invocations. -/
def aforward [ToString α] (m : LMOracle) (db_manager : KuzuDatabaseManager α)
    (question input_schema : String) : Option Answer × Nat :=
  let r := run_query m db_manager question input_schema
  match r.2 with
  | none => (none, 0)
  | some final_context =>
      (some (m.generate_answer question r.1 (toString final_context)), 1)

/-- A line-break character: newline or carriage return. -/
def isLineBreak (c : Char) : Bool :=
  c = Char.ofNat 10 || c = Char.ofNat 13

/-- Whether a string contains a line-break character. -/
def hasLineBreak (s : String) : Bool :=
  s.data.any isLineBreak

/-- Modelled from the spec: the flattening the spec describes for
`run_query` results, "the single flat sequence obtained by concatenating
the rows in row order, taking each row's column values in column order".
Stated independently of the source comprehension so the two can be
compared. -/
def rowMajorFlatten : List (List α) → List α
  | [] => []
  | r :: rs => r ++ rowMajorFlatten rs

/-- The node output by `get_schema_dict` for one node table
(src/utils.py lines 25-30): a dict with a label and a properties entry.
The type of the properties entry admits the absent variant that the
data-model `Node` permits (`list[Property] | None`), so that what the
introspection actually produces can be stated. -/
structure SchemaNode where
  label : String
  properties : Option (List Property)
deriving Repr, DecidableEq

/-- The edge output by `get_schema_dict` for one catalog connection row
(src/utils.py lines 32-42): a dict with label, the endpoint labels under
the keys "from" (here `from_`) and "to" (here `to_`), and a properties
entry, again typed to admit the absent variant the data-model `Edge`
permits. -/
structure SchemaEdge where
  label : String
  from_ : String
  to_ : String
  properties : Option (List Property)
deriving Repr, DecidableEq

/-- The dict returned by `get_schema_dict` (src/utils.py line 23):
nodes and edges. -/
structure SchemaDict where
  nodes : List SchemaNode
  edges : List SchemaEdge
deriving Repr, DecidableEq

/-- The catalog state of the database that the introspection queries read
(src/utils.py lines 14-22, 27, 39), projected to the row components the
code uses: `nodeTables` holds row[1] of each SHOW_TABLES row of type
NODE, `relTables` row[1] of each row of type REL, `connections t` the
pairs (row[0], row[1]) of the SHOW_CONNECTION rows of table t in catalog
order, and `tableInfo t` the pairs (row[1], row[2]) of the TABLE_INFO
rows of table t, in catalog order. -/
structure Catalog where
  nodeTables : List String
  relTables : List String
  connections : String → List (String × String)
  tableInfo : String → List (String × String)

/-- `KuzuDatabaseManager.get_schema_dict` (src/utils.py lines 12-43) as a
function of the catalog state: collect node table names, flatten each rel
table with each of its SHOW_CONNECTION rows into a relationship record,
then build node schemas and edge schemas whose properties lists come from
TABLE_INFO. -/
def get_schema_dict (c : Catalog) : SchemaDict :=
  let nodes := c.nodeTables
  let relationships :=
    c.relTables.flatMap fun tbl_name =>
      (c.connections tbl_name).map fun row => (tbl_name, row.1, row.2)
  let schemaNodes :=
    nodes.map fun node =>
      SchemaNode.mk node
        (some ((c.tableInfo node).map fun row => Property.mk row.1 row.2))
  let schemaEdges :=
    relationships.map fun rel =>
      SchemaEdge.mk rel.1 rel.2.1 rel.2.2
        (some ((c.tableInfo rel.1).map fun row => Property.mk row.1 row.2))
  SchemaDict.mk schemaNodes schemaEdges

/-- One step of the batch gather: the task at index `i` completes and its
outcome is written to slot `i` of the result list; an index outside the
task list changes nothing. -/
def gatherStep (tasks : List β) (acc : List (Option β)) (i : Nat) :
    List (Option β) :=
  match tasks[i]? with
  | some t => acc.set i (some t)
  | none => acc

/-- `asyncio.gather` over already-determined task outcomes: starting from
a result list of unfilled slots, the tasks complete in the order given by
`order` and each writes its outcome into its own slot. -/
def gatherWithOrder (tasks : List β) (order : List Nat) :
    List (Option β) :=
  order.foldl (gatherStep tasks) (List.replicate tasks.length none)

/-- The batch runner of `main` (src/text2cypher.py lines 166-179): one
task per question, built by applying the per-question pipeline (the
`aforward` coroutine, which may terminate in an exception, modelled by
`Except`), gathered with `return_exceptions=True` under an arbitrary
completion order. -/
def run_batch (task : String → Except ε β) (questions : List String)
    (order : List Nat) : List (Option (Except ε β)) :=
  gatherWithOrder (questions.map task) order

theorem gatherStep_length (tasks : List β) (acc : List (Option β)) (i : Nat) :
    (gatherStep tasks acc i).length = acc.length := by
  unfold gatherStep
  cases tasks[i]? <;> simp

theorem gather_foldl_length (tasks : List β) (order : List Nat)
    (acc : List (Option β)) :
    (order.foldl (gatherStep tasks) acc).length = acc.length := by
  induction order generalizing acc with
  | nil => rfl
  | cons i rest ih => rw [List.foldl_cons, ih, gatherStep_length]

theorem gather_foldl_not_mem (tasks : List β) (order : List Nat)
    (acc : List (Option β)) (j : Nat) (hj : j ∉ order) :
    (order.foldl (gatherStep tasks) acc)[j]? = acc[j]? := by
  induction order generalizing acc with
  | nil => rfl
  | cons i rest ih =>
    simp only [List.mem_cons, not_or] at hj
    rw [List.foldl_cons, ih _ hj.2]
    unfold gatherStep
    cases tasks[i]? with
    | none => rfl
    | some t => exact List.getElem?_set_ne (Ne.symm hj.1)

theorem gather_foldl_mem (tasks : List β) (order : List Nat)
    (acc : List (Option β)) (j : Nat) (t : β) (ht : tasks[j]? = some t)
    (hmem : j ∈ order) (hlen : acc.length = tasks.length) :
    (order.foldl (gatherStep tasks) acc)[j]? = some (some t) := by
  induction order generalizing acc with
  | nil => cases hmem
  | cons i rest ih =>
    rw [List.foldl_cons]
    by_cases hr : j ∈ rest
    · exact ih _ hr (by rw [gatherStep_length, hlen])
    · have hij : i = j := by
        rcases List.mem_cons.mp hmem with h | h
        · exact h.symm
        · exact absurd h hr
      subst hij
      rw [gather_foldl_not_mem tasks rest _ i hr]
      unfold gatherStep
      rw [ht]
      have hil : i < acc.length := by
        rw [hlen]
        exact (List.getElem?_eq_some_iff.mp ht).1
      exact List.getElem?_set_eq_of_lt _ hil

theorem gatherWithOrder_complete (tasks : List β) (order : List Nat)
    (hcover : ∀ j, j < tasks.length → j ∈ order) :
    gatherWithOrder tasks order = tasks.map some := by
  apply List.ext_getElem?
  intro j
  by_cases hj : j < tasks.length
  · have ht : tasks[j]? = some tasks[j] := List.getElem?_eq_getElem hj
    rw [gatherWithOrder,
      gather_foldl_mem tasks order _ j tasks[j] ht (hcover j hj)
        (List.length_replicate _ _),
      List.getElem?_map, ht]
    rfl
  · have h1 : (gatherWithOrder tasks order)[j]? = none := by
      apply List.getElem?_eq_none
      rw [gatherWithOrder, gather_foldl_length, List.length_replicate]
      omega
    have h2 : (tasks.map some)[j]? = none := by
      apply List.getElem?_eq_none
      rw [List.length_map]
      omega
    rw [h1, h2]

theorem flatMap_id_eq_rowMajorFlatten (rows : List (List α)) :
    (rows.flatMap fun row => row) = rowMajorFlatten rows := by
  induction rows with
  | nil => rfl
  | cons r rs ih => simp [rowMajorFlatten, ih]

/-- A model oracle that always answers with a fixed, newline-free
query. -/
def constLM : LMOracle :=
  LMOracle.mk (fun _ _ => GraphSchema.mk [] [])
    (fun _ _ => Query.mk "MATCH (a1) RETURN a1.id")
    (fun _ _ _ => Answer.mk "ok")

/-- A model oracle whose generated query contains a newline. -/
def newlineLM : LMOracle :=
  LMOracle.mk (fun _ _ => GraphSchema.mk [] [])
    (fun _ _ => Query.mk "MATCH (a1) RETURN a1.id\nLIMIT 1")
    (fun _ _ _ => Answer.mk "ok")

/-- A database connection whose execution always fails with a
RuntimeError. -/
def failDB : KuzuDatabaseManager Nat :=
  KuzuDatabaseManager.mk (KuzuConnection.mk fun _ => .error "Binder exception")

/-- A database connection that returns two rows, of two and one columns,
for every query. -/
def okDB : KuzuDatabaseManager Nat :=
  KuzuDatabaseManager.mk (KuzuConnection.mk fun _ => .ok [[1, 2], [3]])

/-- C1: the claim states that for every edge parsed into the `Edge`
data-model type, `to` equals the catalog-declared target node label and
the direction is never swapped.  The code contradicts its own field
documentation: both `from_` and `to` carry `alias="from"`, so validating
a payload whose "from" is Comment and whose "to" is Person yields an
edge whose `to` field is Comment — the source label, not the declared
target. -/
theorem edge_parse_direction_bug :
    (Edge.parse (EdgePayload.mk "hasCreator" (Node.mk "Comment" (some []))
        (Node.mk "Person" (some [])) (some []))).to_ =
      Node.mk "Comment" (some []) ∧
    (Edge.parse (EdgePayload.mk "hasCreator" (Node.mk "Comment" (some []))
        (Node.mk "Person" (some [])) (some []))).to_ ≠
      Node.mk "Person" (some []) := by
  refine ⟨rfl, ?_⟩
  decide

/-- C2: if executing the generated query raises a database execution
error (a RuntimeError of the kuzu client, the class `run_query`
catches), then `run_query` returns the query text paired with the absent
result; being a total function, it never propagates the error. -/
theorem run_query_recovers_execution_error {α : Type} (m : LMOracle)
    (db_manager : KuzuDatabaseManager α) (question input_schema : String)
    (e : String)
    (h : db_manager.conn.execute (get_cypher_query m question input_schema).query =
      .error e) :
    run_query m db_manager question input_schema =
      ((get_cypher_query m question input_schema).query, none) := by
  simp [run_query, h]

/-- Witness for C2 at a concrete oracle and a failing connection. -/
theorem run_query_recovers_execution_error_witness :
    failDB.conn.execute (get_cypher_query constLM "q" "s").query =
      .error "Binder exception" ∧
    run_query constLM failDB "q" "s" =
      ((get_cypher_query constLM "q" "s").query, none) :=
  ⟨rfl, run_query_recovers_execution_error constLM failDB "q" "s"
    "Binder exception" rfl⟩

/-- C3: when `run_query` reports an absent result context, both `forward`
and `aforward` return the absent answer and the answer-synthesis model
call `generate_answer` is invoked zero times. -/
theorem forward_short_circuits {α : Type} [ToString α] (m : LMOracle)
    (db_manager : KuzuDatabaseManager α) (question input_schema : String)
    (h : (run_query m db_manager question input_schema).2 = none) :
    forward m db_manager question input_schema = (none, 0) ∧
    aforward m db_manager question input_schema = (none, 0) := by
  constructor <;> simp [forward, aforward, h]

/-- Witness for C3 at a concrete oracle and a failing connection. -/
theorem forward_short_circuits_witness :
    (run_query constLM failDB "q" "s").2 = none ∧
    forward constLM failDB "q" "s" = (none, 0) :=
  ⟨rfl, (forward_short_circuits constLM failDB "q" "s" rfl).1⟩

/-- C4 counterexample: with a model whose structured output contains a
newline, the query text returned by `get_cypher_query` contains a
line-break character — the generator enforces no such postcondition. -/
theorem get_cypher_query_newline_counterexample :
    hasLineBreak (get_cypher_query newlineLM "q" "s").query = true := by
  decide

/-- C4 amended: `get_cypher_query` returns the model's structured output
unchanged and performs no newline enforcement; the returned query text is
line-break-free exactly when the model's output is (the no-newline rule
lives in the prompt, the `Query` field description). -/
theorem get_cypher_query_passes_model_output_through (m : LMOracle)
    (question input_schema : String) :
    get_cypher_query m question input_schema =
      m.text2cypher question (m.prune question input_schema) ∧
    hasLineBreak (get_cypher_query m question input_schema).query =
      hasLineBreak (m.text2cypher question (m.prune question input_schema)).query :=
  ⟨rfl, rfl⟩

/-- A per-question pipeline in which the first question succeeds with the
context value 42 and the second terminates in an exception. -/
def demoTask : String → Except String (Option Nat) := fun q =>
  if q = "Q2" then .error "RuntimeError: Binder exception" else .ok (some 42)

/-- C5: if the pipeline of the question at position `i` raises an
exception, the batch still completes under any completion order covering
all tasks; position `i` of the result holds the exception and every
sibling position holds its own independent outcome. -/
theorem run_batch_isolates_failures {ε β : Type} (task : String → Except ε β)
    (questions : List String) (order : List Nat) (i : Nat) (e : ε)
    (hcover : ∀ j, j < questions.length → j ∈ order)
    (hi : i < questions.length)
    (herr : task (questions.get ⟨i, hi⟩) = .error e) :
    (run_batch task questions order)[i]? = some (some (.error e)) ∧
    ∀ j, (hj : j < questions.length) → j ≠ i →
      (run_batch task questions order)[j]? =
        some (some (task (questions.get ⟨j, hj⟩))) := by
  have hc : ∀ j, j < (questions.map task).length → j ∈ order := by
    intro j hj
    rw [List.length_map] at hj
    exact hcover j hj
  have hmain : run_batch task questions order = (questions.map task).map some :=
    gatherWithOrder_complete _ _ hc
  have hpos : ∀ j, (hj : j < questions.length) →
      (run_batch task questions order)[j]? =
        some (some (task (questions.get ⟨j, hj⟩))) := by
    intro j hj
    rw [hmain, List.getElem?_map, List.getElem?_map,
      List.getElem?_eq_getElem hj]
    rfl
  exact ⟨by rw [hpos i hi, herr], fun j hj _ => hpos j hj⟩

/-- Witness for C5: the batch of two questions under the reversed
completion order, the second question failing. -/
theorem run_batch_isolates_failures_witness :
    ((∀ j, j < (["Q1", "Q2"] : List String).length → j ∈ ([1, 0] : List Nat)) ∧
      demoTask ((["Q1", "Q2"] : List String).get ⟨1, by decide⟩) =
        .error "RuntimeError: Binder exception") ∧
    (run_batch demoTask ["Q1", "Q2"] [1, 0])[1]? =
      some (some (.error "RuntimeError: Binder exception")) :=
  ⟨⟨by decide, rfl⟩,
    (run_batch_isolates_failures demoTask ["Q1", "Q2"] [1, 0] 1
      "RuntimeError: Binder exception" (by decide) (by decide) rfl).1⟩

/-- C6: under any completion order covering all tasks, `run_batch`
returns as many outcomes as there are questions, and the outcome at each
index `i` is the pipeline outcome of the question at index `i`. -/
theorem run_batch_preserves_positions {ε β : Type} (task : String → Except ε β)
    (questions : List String) (order : List Nat)
    (hcover : ∀ j, j < questions.length → j ∈ order) :
    (run_batch task questions order).length = questions.length ∧
    ∀ i, (hi : i < questions.length) →
      (run_batch task questions order)[i]? =
        some (some (task (questions.get ⟨i, hi⟩))) := by
  have hc : ∀ j, j < (questions.map task).length → j ∈ order := by
    intro j hj
    rw [List.length_map] at hj
    exact hcover j hj
  have hmain : run_batch task questions order = (questions.map task).map some :=
    gatherWithOrder_complete _ _ hc
  constructor
  · rw [hmain, List.length_map, List.length_map]
  · intro i hi
    rw [hmain, List.getElem?_map, List.getElem?_map,
      List.getElem?_eq_getElem hi]
    rfl

/-- Witness for C6: two questions gathered under the reversed completion
order still yield a two-element result list in question order. -/
theorem run_batch_preserves_positions_witness :
    (∀ j, j < (["Q1", "Q2"] : List String).length → j ∈ ([1, 0] : List Nat)) ∧
    (run_batch demoTask ["Q1", "Q2"] [1, 0]).length =
      (["Q1", "Q2"] : List String).length :=
  ⟨by decide,
    (run_batch_preserves_positions demoTask ["Q1", "Q2"] [1, 0] (by decide)).1⟩

/-- C7: the from/to pairs of the edges emitted by `get_schema_dict` are
exactly the catalog connection rows of the rel tables, first endpoint
then second endpoint, in declared order; and re-running the introspection
on the unchanged catalog reproduces the same schema. -/
theorem get_schema_dict_edge_endpoints (c : Catalog) :
    ((get_schema_dict c).edges.map fun e => (e.from_, e.to_)) =
      (c.relTables.flatMap fun tbl_name => c.connections tbl_name) ∧
    get_schema_dict c = get_schema_dict c := by
  refine ⟨?_, rfl⟩
  simp [get_schema_dict, List.map_flatMap, List.map_map, Function.comp_def]

/-- C8: on successful execution returning `rows`, `run_query` returns the
query text paired with the row-major, column-major concatenation of the
rows (the spec-side `rowMajorFlatten`). -/
theorem run_query_flattens_rows {α : Type} (m : LMOracle)
    (db_manager : KuzuDatabaseManager α) (question input_schema : String)
    (rows : List (List α))
    (h : db_manager.conn.execute (get_cypher_query m question input_schema).query =
      .ok rows) :
    run_query m db_manager question input_schema =
      ((get_cypher_query m question input_schema).query,
        some (rowMajorFlatten rows)) := by
  simp [run_query, h, flatMap_id_eq_rowMajorFlatten]

/-- Witness for C8: rows [[1, 2], [3]] flatten to [1, 2, 3]. -/
theorem run_query_flattens_rows_witness :
    okDB.conn.execute (get_cypher_query constLM "q" "s").query =
      .ok [[1, 2], [3]] ∧
    run_query constLM okDB "q" "s" =
      ((get_cypher_query constLM "q" "s").query, some [1, 2, 3]) :=
  ⟨rfl, run_query_flattens_rows constLM okDB "q" "s" [[1, 2], [3]] rfl⟩

/-- C9: the synchronous entry point `forward` and the asynchronous entry
point `aforward` compute the same result on every oracle, database state
and question/schema input. -/
theorem forward_eq_aforward {α : Type} [ToString α] (m : LMOracle)
    (db_manager : KuzuDatabaseManager α) (question input_schema : String) :
    forward m db_manager question input_schema =
      aforward m db_manager question input_schema := rfl

/-- C10: every node and every edge emitted by `get_schema_dict` carries a
present properties list; the absent variant permitted by the data model
is never produced. -/
theorem get_schema_dict_properties_present (c : Catalog) :
    (∀ n ∈ (get_schema_dict c).nodes, n.properties.isSome = true) ∧
    (∀ e ∈ (get_schema_dict c).edges, e.properties.isSome = true) := by
  constructor
  · intro n hn
    simp only [get_schema_dict, List.mem_map] at hn
    obtain ⟨x, _, rfl⟩ := hn
    rfl
  · intro e he
    simp only [get_schema_dict, List.mem_map, List.mem_flatMap] at he
    obtain ⟨x, _, rfl⟩ := he
    rfl

/-- A one-node, one-edge catalog. -/
def demoCatalog : Catalog :=
  Catalog.mk ["Person"] ["knows"]
    (fun _ => [("Person", "Person")])
    (fun _ => [("id", "INT64")])

/-- Witness for C10 on a concrete catalog. -/
theorem get_schema_dict_properties_present_witness :
    (SchemaNode.mk "Person" (some [Property.mk "id" "INT64"]) ∈
      (get_schema_dict demoCatalog).nodes) ∧
    (SchemaNode.mk "Person"
      (some [Property.mk "id" "INT64"])).properties.isSome = true :=
  ⟨by decide, (get_schema_dict_properties_present demoCatalog).1 _ (by decide)⟩

end Text2Cypher
